import Mathlib

/-!
Verification development for the OpenP2P buffered-stream core and the
IP address conversion functions.

The `BufferedStream` header (src/OpenP2P/BufferedStream.hpp) declares the
class, its fields (`bufferSize_`, `data_`, `readPos_`, `writePos_`), the
inline accessors (`size_`, `get`, `bufferSize`, the zero-argument
`readSome` delegating to `readSome(bufferSize_)`) and the constant
`DefaultBufferSize = 4096`.  The bodies of `readSome(std::size_t)`,
`consume`, `onRead` and the constructor are not part of the repository
snapshot; those operations are modelled from the specification (section
4.1 of the design document), as marked on each definition.

The IP address conversions (`Address::ToImpl`, `Address::FromImpl`) are
embedded from src/OpenP2P/IP/Address.cpp.  The `V4Address`/`V6Address`
wrappers and the boost `ip::address` implementation type are modelled as
byte-sequence values, with the version tag of `Address` represented by
its underlying integer (0 = v4, 1 = v6, other values representing an
uninitialised tag as left by the default constructor).
-/

/-- Error taxonomy of the buffered window, from section 7 of the spec. -/
inductive BufferError
  | invalidArgument
  | bufferExhausted
  | operationInProgress
deriving DecidableEq

/-- State of a `BufferedStream` (BufferedWindow): the fields of the C++
class from src/OpenP2P/BufferedStream.hpp, with the byte buffer
`data_` modelled as a list of bytes and the Idle/Filling state-machine
state (spec section 4.1) as the flag `filling`. -/
structure BufferedStream where
  bufferSize_ : Nat
  data_ : List Nat
  readPos_ : Nat
  writePos_ : Nat
  filling : Bool
deriving DecidableEq

/-- Embeds `BufferedStream::size_` (BufferedStream.hpp lines 89-91):
`writePos_ - readPos_`. -/
def BufferedStream.size_ (s : BufferedStream) : Nat :=
  s.writePos_ - s.readPos_

/-- Derived quantity `freeCapacity = capacity - writeOffset` (spec
section 3). -/
def BufferedStream.freeCapacity (s : BufferedStream) : Nat :=
  s.bufferSize_ - s.writePos_

/-- Embeds `BufferedStream::bufferSize` (BufferedStream.hpp lines 74-77),
the spec's `capacity()` accessor. -/
def BufferedStream.capacity (s : BufferedStream) : Nat :=
  s.bufferSize_

/-- Embeds `BufferedStream::get` (BufferedStream.hpp lines 54-57), the
spec's `peek()`: the read-only view over `[readOffset, writeOffset)`,
modelled as the list of bytes in that region. -/
def BufferedStream.get (s : BufferedStream) : List Nat :=
  (s.data_.drop s.readPos_).take s.size_

/-- Embeds `DefaultBufferSize` (BufferedStream.hpp line 13). -/
def DefaultBufferSize : Nat := 4096

/-- Modelled from the spec: the constructor
`BufferedStream::BufferedStream(IStream&, std::size_t)` whose body is
missing from the snapshot.  Spec section 4.1: `create(source, capacity)`
allocates the buffer, sets `readOffset = writeOffset = 0`, and fails with
`InvalidArgument` if `capacity == 0`. -/
def BufferedStream.create (bufferSize : Nat) : Except BufferError BufferedStream :=
  if bufferSize = 0 then Except.error BufferError.invalidArgument
  else Except.ok
    { bufferSize_ := bufferSize
      data_ := List.replicate bufferSize 0
      readPos_ := 0
      writePos_ := 0
      filling := false }

/-- Construction with the capacity left unspecified: the C++ default
argument `bufferSize = DefaultBufferSize` (BufferedStream.hpp line 28). -/
def BufferedStream.createDefault : Except BufferError BufferedStream :=
  BufferedStream.create DefaultBufferSize

/-- Modelled from the spec: the compaction phase of `readSome`
(`onRead`), whose body is missing from the snapshot.  Spec section 4.1:
if `freeCapacity < min(requestedSize, capacity - unconsumedSize)` and
`readOffset > 0`, the unconsumed region `[readOffset, writeOffset)` is
shifted to the start of the buffer (`readOffset` becomes 0, `writeOffset`
becomes `unconsumedSize`); the shift is a memmove, leaving the bytes past
the shifted region unchanged. -/
def BufferedStream.compact (s : BufferedStream) (requestedSize : Nat) : BufferedStream :=
  if s.freeCapacity < min requestedSize (s.bufferSize_ - s.size_) ∧ 0 < s.readPos_ then
    { s with
      data_ := (s.data_.drop s.readPos_).take s.size_ ++ s.data_.drop s.size_
      readPos_ := 0
      writePos_ := s.size_ }
  else s

/-- Modelled from the spec: the synchronous part of
`BufferedStream::readSome(std::size_t)`, whose body is missing from the
snapshot.  Spec section 4.1: fails with `OperationInProgress` if a fill
is already in flight; otherwise compacts, fails with `BufferExhausted`
if `freeCapacity == 0` after compaction (without contacting the source),
and otherwise issues an asynchronous read for
`min(requestedSize, freeCapacity)` bytes, entering the Filling state.
Returns the post-compaction Filling state and the effective request. -/
def BufferedStream.readSomeStart (s : BufferedStream) (requestedSize : Nat) :
    Except BufferError (BufferedStream × Nat) :=
  if s.filling then Except.error BufferError.operationInProgress
  else
    let c := s.compact requestedSize
    if c.freeCapacity = 0 then Except.error BufferError.bufferExhausted
    else Except.ok ({ c with filling := true }, min requestedSize c.freeCapacity)

/-- Modelled from the spec: completion of a fill (`onRead`), whose body
is missing from the snapshot.  Spec section 4.1: the source has written
`newBytes` into the buffer starting at `writeOffset`; on completion
`writeOffset += n` and the pending value resolves to `n`, returning to
the Idle state. -/
def BufferedStream.readSomeComplete (s : BufferedStream) (newBytes : List Nat) :
    BufferedStream × Nat :=
  ({ s with
      data_ := s.data_.take s.writePos_ ++ newBytes
        ++ s.data_.drop (s.writePos_ + newBytes.length)
      writePos_ := s.writePos_ + newBytes.length
      filling := false },
    newBytes.length)

/-- Modelled from the spec: completion of a fill whose source read
failed.  Spec section 4.1: the offsets are left unchanged; the instance
returns to the Idle state. -/
def BufferedStream.readSomeFail (s : BufferedStream) : BufferedStream :=
  { s with filling := false }

/-- A whole `readSome(requestedSize)` call in which the source responds
with the byte list `newBytes`: the synchronous start phase followed by
the completion. -/
def BufferedStream.readSome (s : BufferedStream) (requestedSize : Nat)
    (newBytes : List Nat) : Except BufferError (BufferedStream × Nat) :=
  match s.readSomeStart requestedSize with
  | Except.error e => Except.error e
  | Except.ok (c, _) => Except.ok (c.readSomeComplete newBytes)

/-- Embeds the zero-argument `BufferedStream::readSome`
(BufferedStream.hpp lines 36-38): `return readSome(bufferSize_);`. -/
def BufferedStream.readSomeNoArg (s : BufferedStream) (newBytes : List Nat) :
    Except BufferError (BufferedStream × Nat) :=
  s.readSome s.bufferSize_ newBytes

/-- Definition following the spec words for the convenience form of fill:
a fill requesting up to the full configured capacity of the buffer. -/
def BufferedStream.fillFullCapacity (s : BufferedStream) (newBytes : List Nat) :
    Except BufferError (BufferedStream × Nat) :=
  s.readSome s.capacity newBytes

/-- Modelled from the spec: `BufferedStream::consume`, whose body is
missing from the snapshot.  Spec section 4.1: precondition
`0 ≤ n ≤ unconsumedSize()`; violating it fails with `InvalidArgument`
and leaves the state unchanged; otherwise `readOffset += n`. -/
def BufferedStream.consume (s : BufferedStream) (consumeSize : Nat) :
    Except BufferError BufferedStream :=
  if s.size_ < consumeSize then Except.error BufferError.invalidArgument
  else Except.ok { s with readPos_ := s.readPos_ + consumeSize }

/-- An operation on a buffered window, for stating trace properties:
a consume, a fill in which the source responds with the given bytes, or
a fill whose source read fails. -/
inductive BufOp
  | doConsume (n : Nat)
  | doFill (req : Nat) (resp : List Nat)
  | doFillFail (req : Nat)

/-- One observable step: the state after the operation completes.  An
operation that fails leaves the state unchanged. -/
def BufferedStream.step (s : BufferedStream) (op : BufOp) : BufferedStream :=
  match op with
  | BufOp.doConsume n =>
    match s.consume n with
    | Except.ok s2 => s2
    | Except.error _ => s
  | BufOp.doFill req resp =>
    match s.readSomeStart req with
    | Except.ok (c, _) => (c.readSomeComplete resp).1
    | Except.error _ => s
  | BufOp.doFillFail req =>
    match s.readSomeStart req with
    | Except.ok (c, _) => c.readSomeFail
    | Except.error _ => s

/-- The operation respects the byte-source contract: a fill response
never exceeds the effective request issued to the source. -/
def BufferedStream.opOk (s : BufferedStream) (op : BufOp) : Bool :=
  match op with
  | BufOp.doConsume _ => true
  | BufOp.doFill req resp =>
    match s.readSomeStart req with
    | Except.ok (_, eff) => Nat.ble resp.length eff
    | Except.error _ => true
  | BufOp.doFillFail _ => true

/-- Runs a sequence of operations. -/
def BufferedStream.run (s : BufferedStream) : List BufOp → BufferedStream
  | [] => s
  | op :: ops => (s.step op).run ops

/-- Every operation of the sequence respects the byte-source contract in
the state where it executes. -/
def BufferedStream.legalRun (s : BufferedStream) : List BufOp → Bool
  | [] => true
  | op :: ops => s.opOk op && (s.step op).legalRun ops

/-- The buffered-window invariant, spec section 3:
`0 ≤ readOffset ≤ writeOffset ≤ capacity`, together with the buffer
being a region of exactly `capacity` bytes. -/
def BufferedStream.Inv (s : BufferedStream) : Prop :=
  s.readPos_ ≤ s.writePos_ ∧ s.writePos_ ≤ s.bufferSize_ ∧
    s.data_.length = s.bufferSize_

instance (s : BufferedStream) : Decidable s.Inv := by
  unfold BufferedStream.Inv
  infer_instance

/-! ## IP address conversions, from src/OpenP2P/IP/Address.cpp -/

/-- Modelled from the spec: the `V4Address` wrapper (OpenP2P/IP/V4Address
is missing from the snapshot); the spec describes the address type as a
simple tagged union of thin wrappers over the implementation address
values, here the four bytes of an IPv4 address. -/
structure V4Address where
  bytes : List Nat
deriving DecidableEq

/-- Modelled from the spec: the `V6Address` wrapper (OpenP2P/IP/V6Address
is missing from the snapshot), a thin wrapper over the sixteen bytes of
an IPv6 address. -/
structure V6Address where
  bytes : List Nat
deriving DecidableEq

/-- The boost implementation type for an IPv4 address
(`boost::asio::ip::address_v4`), modelled by its bytes. -/
structure V4ImplType where
  bytes : List Nat
deriving DecidableEq

/-- The boost implementation type for an IPv6 address
(`boost::asio::ip::address_v6`), modelled by its bytes. -/
structure V6ImplType where
  bytes : List Nat
deriving DecidableEq

/-- The boost implementation type `boost::asio::ip::address`
(`AddressImplType`): a tagged union of a v4 and a v6 address. -/
inductive AddressImplType
  | v4impl (a : V4ImplType)
  | v6impl (a : V6ImplType)
deriving DecidableEq

/-- Default-constructed `AddressImplType()`: boost default-constructs an
`ip::address` as the IPv4 address 0.0.0.0. -/
def AddressImplType.defaultCtor : AddressImplType :=
  AddressImplType.v4impl ⟨[0, 0, 0, 0]⟩

/-- The boost predicate `is_v4()`. -/
def AddressImplType.is_v4 : AddressImplType → Bool
  | AddressImplType.v4impl _ => true
  | AddressImplType.v6impl _ => false

/-- The boost conversion `to_v4()` (only called on values that satisfy
`is_v4()`; boost throws otherwise, modelled by a junk value). -/
def AddressImplType.to_v4 : AddressImplType → V4ImplType
  | AddressImplType.v4impl a => a
  | AddressImplType.v6impl _ => ⟨[]⟩

/-- The boost conversion `to_v6()` (only called on values that do not
satisfy `is_v4()`; boost throws otherwise, modelled by a junk value). -/
def AddressImplType.to_v6 : AddressImplType → V6ImplType
  | AddressImplType.v4impl _ => ⟨[]⟩
  | AddressImplType.v6impl a => a

/-- Modelled from the spec: `V4Address::ToImpl`, a thin wrapper
conversion to the implementation bytes (body missing from the
snapshot). -/
def V4Address.ToImpl (a : V4Address) : V4ImplType := ⟨a.bytes⟩

/-- Modelled from the spec: `V4Address::FromImpl`, a thin wrapper
conversion from the implementation bytes (body missing from the
snapshot). -/
def V4Address.FromImpl (a : V4ImplType) : V4Address := ⟨a.bytes⟩

/-- Modelled from the spec: `V6Address::ToImpl` (body missing from the
snapshot). -/
def V6Address.ToImpl (a : V6Address) : V6ImplType := ⟨a.bytes⟩

/-- Modelled from the spec: `V6Address::FromImpl` (body missing from the
snapshot). -/
def V6Address.FromImpl (a : V6ImplType) : V6Address := ⟨a.bytes⟩

/-- The tagged-union `Address` value type, from OpenP2P/IP/Address.  The
C++ `Version` enum field is modelled by its underlying integer value
(0 for `v4`, 1 for `v6`); the default constructor `Address::Address() { }`
(Address.cpp line 31) leaves the tag uninitialised, so any other integer
value represents an indeterminate tag. -/
structure Address where
  version : Nat
  v4Address : V4Address
  v6Address : V6Address
deriving DecidableEq

/-- The enumerator value of `v4` in the `Version` enum. -/
def IPv4Tag : Nat := 0

/-- The enumerator value of `v6` in the `Version` enum. -/
def IPv6Tag : Nat := 1

/-- Embeds `Address::ToImpl` (Address.cpp lines 7-15): switch on the
version tag, converting the matching branch; any value outside the two
enumerators falls through to a default-constructed `AddressImplType()`. -/
def Address.ToImpl (address : Address) : AddressImplType :=
  if address.version = IPv4Tag then
    AddressImplType.v4impl (V4Address.ToImpl address.v4Address)
  else if address.version = IPv6Tag then
    AddressImplType.v6impl (V6Address.ToImpl address.v6Address)
  else AddressImplType.defaultCtor

/-- Embeds `Address::FromImpl` (Address.cpp lines 17-29): chooses the v4
branch exactly when `is_v4()` holds, the v6 branch otherwise.  The field
of the non-chosen branch is left default-constructed, modelled as the
empty byte list. -/
def Address.FromImpl (addressImpl : AddressImplType) : Address :=
  if addressImpl.is_v4 then
    { version := IPv4Tag
      v4Address := V4Address.FromImpl addressImpl.to_v4
      v6Address := ⟨[]⟩ }
  else
    { version := IPv6Tag
      v4Address := ⟨[]⟩
      v6Address := V6Address.FromImpl addressImpl.to_v6 }

/-! ## Theorems -/

/-- C9: round-trip of the IP address conversions: for every
implementation-level address value `a`,
`Address.ToImpl (Address.FromImpl a) = a` — converting to the
tagged-union `Address` (choosing the v4 branch exactly when `a` is an
IPv4 address, the v6 branch otherwise) and back yields the original
value. -/
theorem claim_C9_address_roundtrip (a : AddressImplType) :
    Address.ToImpl (Address.FromImpl a) = a := by
  cases a <;>
    simp [Address.FromImpl, Address.ToImpl, AddressImplType.is_v4,
      AddressImplType.to_v4, AddressImplType.to_v6, V4Address.FromImpl,
      V4Address.ToImpl, V6Address.FromImpl, V6Address.ToImpl, IPv4Tag, IPv6Tag]

/-- C10: `Address.ToImpl` is total over the version tag: for every
`Address` whose version field is neither `v4` nor `v6` (as is possible
for a default-constructed `Address`, whose constructor leaves the tag
unset), `ToImpl` returns a default-constructed implementation address
value rather than failing. -/
theorem claim_C10_toimpl_total (addr : Address)
    (h4 : addr.version ≠ IPv4Tag) (h6 : addr.version ≠ IPv6Tag) :
    Address.ToImpl addr = AddressImplType.defaultCtor := by
  simp [Address.ToImpl, h4, h6]

/-- Witness for C10: a concrete address with an out-of-range version tag
maps to the default-constructed implementation value. -/
theorem claim_C10_toimpl_total_witness :
    Address.ToImpl { version := 2, v4Address := ⟨[9]⟩, v6Address := ⟨[8]⟩ }
      = AddressImplType.defaultCtor :=
  claim_C10_toimpl_total _ (by decide) (by decide)

/-! ### Helper lemmas about the buffered window -/

theorem BufferedStream.size_compact (s : BufferedStream) (req : Nat) :
    (s.compact req).size_ = s.size_ := by
  unfold BufferedStream.compact
  split <;> simp [BufferedStream.size_]

theorem BufferedStream.compact_inv {s : BufferedStream} (req : Nat) (h : s.Inv) :
    (s.compact req).Inv := by
  obtain ⟨h1, h2, h3⟩ := h
  unfold BufferedStream.compact
  split
  · refine ⟨Nat.zero_le _, ?_, ?_⟩ <;>
      simp only [BufferedStream.size_, List.length_append, List.length_take,
        List.length_drop] <;> omega
  · exact ⟨h1, h2, h3⟩

theorem BufferedStream.get_compact {s : BufferedStream} (req : Nat) (h : s.Inv) :
    (s.compact req).get = s.get := by
  obtain ⟨h1, h2, h3⟩ := h
  unfold BufferedStream.compact
  split
  · simp only [BufferedStream.get, BufferedStream.size_, List.drop_zero,
      Nat.sub_zero]
    rw [List.take_append_eq_append_take]
    have hlen : ((s.data_.drop s.readPos_).take (s.writePos_ - s.readPos_)).length
        = s.writePos_ - s.readPos_ := by
      simp [List.length_take, List.length_drop]; omega
    rw [List.take_of_length_le (by omega), hlen]
    simp
  · rfl

theorem BufferedStream.freeCapacity_compact {s : BufferedStream} (req : Nat)
    (h : s.Inv) : s.freeCapacity ≤ (s.compact req).freeCapacity := by
  obtain ⟨h1, h2, h3⟩ := h
  unfold BufferedStream.compact
  split <;> simp [BufferedStream.freeCapacity, BufferedStream.size_] <;> omega

theorem BufferedStream.readSomeStart_ok {s c : BufferedStream} {req eff : Nat}
    (h : s.readSomeStart req = Except.ok (c, eff)) :
    s.filling = false ∧ c = { s.compact req with filling := true } ∧
      eff = min req (s.compact req).freeCapacity ∧
      (s.compact req).freeCapacity ≠ 0 := by
  unfold BufferedStream.readSomeStart at h
  split at h
  · exact absurd h (by simp)
  · next hf =>
    simp only [] at h
    split at h
    · exact absurd h (by simp)
    · next hfree =>
      injection h with h
      injection h with hc heff
      exact ⟨Bool.not_eq_true _ ▸ hf, hc.symm, heff.symm, hfree⟩

theorem BufferedStream.readSomeComplete_inv {s : BufferedStream} {bytes : List Nat}
    (h : s.Inv) (hb : bytes.length ≤ s.freeCapacity) :
    (s.readSomeComplete bytes).1.Inv := by
  obtain ⟨h1, h2, h3⟩ := h
  unfold BufferedStream.freeCapacity at hb
  refine ⟨?_, ?_, ?_⟩ <;>
    simp only [BufferedStream.readSomeComplete, List.length_append,
      List.length_take, List.length_drop] <;>
    omega

theorem BufferedStream.get_complete {s : BufferedStream} (bytes : List Nat)
    (h : s.Inv) (hb : bytes.length ≤ s.freeCapacity) :
    (s.readSomeComplete bytes).1.get = s.get ++ bytes := by
  obtain ⟨h1, h2, h3⟩ := h
  unfold BufferedStream.freeCapacity at hb
  simp only [BufferedStream.readSomeComplete, BufferedStream.get,
    BufferedStream.size_]
  have hA : (s.data_.take s.writePos_).length = s.writePos_ := by
    simp [List.length_take]; omega
  have hAd : ((s.data_.take s.writePos_).drop s.readPos_).length
      = s.writePos_ - s.readPos_ := by
    simp [List.length_drop, hA]
  rw [List.drop_append_of_le_length
    (show s.readPos_ ≤ (s.data_.take s.writePos_ ++ bytes).length by
      rw [List.length_append, hA]; omega)]
  rw [List.take_append_of_le_length
    (show s.writePos_ + bytes.length - s.readPos_
        ≤ ((s.data_.take s.writePos_ ++ bytes).drop s.readPos_).length by
      rw [List.length_drop, List.length_append, hA] <;> omega)]
  rw [List.drop_append_of_le_length
    (show s.readPos_ ≤ (s.data_.take s.writePos_).length by rw [hA]; omega)]
  rw [List.take_append_eq_append_take, hAd]
  rw [List.take_of_length_le
    (show ((s.data_.take s.writePos_).drop s.readPos_).length
        ≤ s.writePos_ + bytes.length - s.readPos_ by rw [hAd]; omega)]
  have hbl : s.writePos_ + bytes.length - s.readPos_ -
      (s.writePos_ - s.readPos_) = bytes.length := by omega
  rw [hbl, List.take_length]
  have hw : s.readPos_ + (s.writePos_ - s.readPos_) = s.writePos_ := by omega
  rw [List.take_drop, hw]

theorem BufferedStream.length_get {s : BufferedStream} (h : s.Inv) :
    s.get.length = s.size_ := by
  obtain ⟨h1, h2, h3⟩ := h
  simp only [BufferedStream.get, BufferedStream.size_, List.length_take,
    List.length_drop]
  omega

theorem BufferedStream.step_inv {s : BufferedStream} {op : BufOp}
    (h : s.Inv) (hok : s.opOk op = true) : (s.step op).Inv := by
  obtain ⟨h1, h2, h3⟩ := h
  cases op with
  | doConsume n =>
    cases hc : s.consume n with
    | error e =>
      simp only [BufferedStream.step, hc]
      exact ⟨h1, h2, h3⟩
    | ok s2 =>
      simp only [BufferedStream.step, hc]
      unfold BufferedStream.consume at hc
      split at hc
      · exact absurd hc (by simp)
      · next hn =>
        injection hc with hc
        subst hc
        refine ⟨?_, h2, h3⟩
        show s.readPos_ + n ≤ s.writePos_
        unfold BufferedStream.size_ at hn
        omega
  | doFill req resp =>
    cases hs : s.readSomeStart req with
    | error e =>
      simp only [BufferedStream.step, hs]
      exact ⟨h1, h2, h3⟩
    | ok p =>
      obtain ⟨c, eff⟩ := p
      simp only [BufferedStream.step, hs]
      obtain ⟨hf, hc, heff, hfree⟩ := BufferedStream.readSomeStart_ok hs
      simp only [BufferedStream.opOk, hs] at hok
      have hresp : resp.length ≤ eff := Nat.le_of_ble_eq_true hok
      subst hc
      show (BufferedStream.readSomeComplete _ resp).1.Inv
      apply BufferedStream.readSomeComplete_inv
      · exact BufferedStream.compact_inv req ⟨h1, h2, h3⟩
      · show resp.length ≤ (s.compact req).freeCapacity
        subst heff
        exact le_trans hresp (Nat.min_le_right _ _)
  | doFillFail req =>
    cases hs : s.readSomeStart req with
    | error e =>
      simp only [BufferedStream.step, hs]
      exact ⟨h1, h2, h3⟩
    | ok p =>
      obtain ⟨c, eff⟩ := p
      simp only [BufferedStream.step, hs]
      obtain ⟨hf, hc, heff, hfree⟩ := BufferedStream.readSomeStart_ok hs
      subst hc
      exact BufferedStream.compact_inv req ⟨h1, h2, h3⟩

theorem BufferedStream.run_inv {s : BufferedStream} {ops : List BufOp}
    (h : s.Inv) (hl : s.legalRun ops = true) : (s.run ops).Inv := by
  induction ops generalizing s with
  | nil => exact h
  | cons op ops ih =>
    simp only [BufferedStream.legalRun, Bool.and_eq_true] at hl
    exact ih (BufferedStream.step_inv h hl.1) hl.2

/-- C1: for every sequence of fill and consume operations on a buffered
window that respects each operation's preconditions (here: the byte
source never returns more bytes than the effective request it was
issued), the invariant `0 ≤ readOffset ≤ writeOffset ≤ capacity` holds
after every operation completes — stated for every constructed window
and every legal operation sequence, so in particular after every prefix
of a legal sequence. -/
theorem claim_C1_offset_invariant (cap : Nat) (s0 : BufferedStream)
    (ops : List BufOp) (hc : BufferedStream.create cap = Except.ok s0)
    (hl : s0.legalRun ops = true) : (s0.run ops).Inv := by
  apply BufferedStream.run_inv _ hl
  unfold BufferedStream.create at hc
  split at hc
  · exact absurd hc (by simp)
  · injection hc with hc
    subst hc
    exact ⟨Nat.zero_le _, Nat.zero_le _, List.length_replicate _ _⟩

/-- Witness for C1: a concrete window of capacity 4 taken through a
fill, a consume, a compacting fill and a failed fill still satisfies the
offset invariant. -/
theorem claim_C1_offset_invariant_witness :
    (BufferedStream.run
      { bufferSize_ := 4, data_ := [0, 0, 0, 0], readPos_ := 0,
        writePos_ := 0, filling := false }
      [BufOp.doFill 4 [1, 2, 3], BufOp.doConsume 2, BufOp.doFill 4 [9, 9],
        BufOp.doFillFail 4]).Inv :=
  claim_C1_offset_invariant 4 _ _ rfl rfl

/-- C2: every fill that triggers compaction (that is,
`freeCapacity < min(requestedSize, capacity - unconsumedSize)` and
`readOffset > 0`) shifts the unconsumed region to the start of the
buffer, so that `readOffset` becomes 0 and `writeOffset` becomes the old
`unconsumedSize`; and the bytes visible via `peek` before the call are
byte-for-byte the prefix of the post-fill `peek` result. -/
theorem claim_C2_compaction_correct (s : BufferedStream) (req : Nat)
    (resp : List Nat) (hInv : s.Inv) (hIdle : s.filling = false)
    (hcond : s.freeCapacity < min req (s.bufferSize_ - s.size_))
    (hread : 0 < s.readPos_)
    (hresp : resp.length ≤ min req (s.compact req).freeCapacity) :
    (s.compact req).readPos_ = 0 ∧
    (s.compact req).writePos_ = s.size_ ∧
    s.readSome req resp
      = Except.ok
        (BufferedStream.readSomeComplete
          { s.compact req with filling := true } resp) ∧
    ((BufferedStream.readSomeComplete
        { s.compact req with filling := true } resp).1.get).take s.size_
      = s.get := by
  have hcomp : s.compact req =
      { s with
        data_ := (s.data_.drop s.readPos_).take s.size_ ++ s.data_.drop s.size_
        readPos_ := 0
        writePos_ := s.size_ } := by
    unfold BufferedStream.compact
    rw [if_pos ⟨hcond, hread⟩]
  have hfree : (s.compact req).freeCapacity ≠ 0 := by
    rw [hcomp]
    show s.bufferSize_ - s.size_ ≠ 0
    have : (0 : Nat) ≤ s.freeCapacity := Nat.zero_le _
    omega
  have hcInv : (s.compact req).Inv := BufferedStream.compact_inv req hInv
  have hcInv2 : BufferedStream.Inv { s.compact req with filling := true } :=
    hcInv
  have hget : BufferedStream.get { s.compact req with filling := true }
      = s.get := BufferedStream.get_compact req hInv
  have hlen : (BufferedStream.get { s.compact req with filling := true }).length
      = s.size_ := by
    rw [hget]
    have := BufferedStream.length_get hInv
    exact this
  refine ⟨by rw [hcomp], by rw [hcomp], ?_, ?_⟩
  · unfold BufferedStream.readSome BufferedStream.readSomeStart
    rw [hIdle]
    simp only [Bool.false_eq_true, if_false]
    rw [if_neg hfree]
  · rw [BufferedStream.get_complete resp hcInv2
      (le_trans hresp (Nat.min_le_right _ _))]
    rw [List.take_append_of_le_length (by rw [hlen])]
    rw [hget, ← BufferedStream.length_get hInv, List.take_length]

/-- Witness for C2: a window of capacity 4 with two consumed bytes and
two unconsumed bytes compacts on a fill of 4, and the previously visible
bytes form the prefix of the post-fill view. -/
theorem claim_C2_compaction_correct_witness :
    (BufferedStream.compact
      { bufferSize_ := 4, data_ := [1, 2, 3, 4], readPos_ := 2,
        writePos_ := 4, filling := false } 4).readPos_ = 0 ∧
    (BufferedStream.compact
      { bufferSize_ := 4, data_ := [1, 2, 3, 4], readPos_ := 2,
        writePos_ := 4, filling := false } 4).writePos_ =
      BufferedStream.size_
        { bufferSize_ := 4, data_ := [1, 2, 3, 4], readPos_ := 2,
          writePos_ := 4, filling := false } ∧
    BufferedStream.readSome
      { bufferSize_ := 4, data_ := [1, 2, 3, 4], readPos_ := 2,
        writePos_ := 4, filling := false } 4 [7, 8]
      = Except.ok
        (BufferedStream.readSomeComplete
          { BufferedStream.compact
            { bufferSize_ := 4, data_ := [1, 2, 3, 4], readPos_ := 2,
              writePos_ := 4, filling := false } 4 with filling := true }
          [7, 8]) ∧
    ((BufferedStream.readSomeComplete
        { BufferedStream.compact
          { bufferSize_ := 4, data_ := [1, 2, 3, 4], readPos_ := 2,
            writePos_ := 4, filling := false } 4 with filling := true }
        [7, 8]).1.get).take
      (BufferedStream.size_
        { bufferSize_ := 4, data_ := [1, 2, 3, 4], readPos_ := 2,
          writePos_ := 4, filling := false })
      = BufferedStream.get
        { bufferSize_ := 4, data_ := [1, 2, 3, 4], readPos_ := 2,
          writePos_ := 4, filling := false } :=
  claim_C2_compaction_correct _ 4 [7, 8] (by decide) rfl (by decide)
    (by decide) (by decide)

/-- C3: for every fill that completes successfully with `n` bytes
obtained from the source, the pending value resolves to `n`, the write
offset of the issuing state is advanced by exactly `n`, and the
unconsumed size after completion equals the unconsumed size before the
fill call plus `n`. -/
theorem claim_C3_fill_resolves (s c : BufferedStream) (req eff : Nat)
    (resp : List Nat) (hInv : s.Inv)
    (hs : s.readSomeStart req = Except.ok (c, eff))
    (hresp : resp.length ≤ eff) :
    (c.readSomeComplete resp).2 = resp.length ∧
    (c.readSomeComplete resp).1.writePos_ = c.writePos_ + resp.length ∧
    (c.readSomeComplete resp).1.size_ = s.size_ + resp.length := by
  obtain ⟨hf, hc, heff, hfree⟩ := BufferedStream.readSomeStart_ok hs
  have hcInv : (s.compact req).Inv := BufferedStream.compact_inv req hInv
  have hle : c.readPos_ ≤ c.writePos_ := by
    subst hc
    exact hcInv.1
  have hsz : c.writePos_ - c.readPos_ = s.size_ := by
    subst hc
    show (s.compact req).writePos_ - (s.compact req).readPos_ = s.size_
    exact BufferedStream.size_compact s req
  refine ⟨rfl, rfl, ?_⟩
  show c.writePos_ + resp.length - c.readPos_ = s.size_ + resp.length
  omega

/-- Witness for C3: a window holding one unconsumed byte accepts a fill
that obtains two bytes; the result resolves to 2 and the unconsumed size
grows from 1 to 3. -/
theorem claim_C3_fill_resolves_witness :
    ((BufferedStream.readSomeComplete
      { bufferSize_ := 4, data_ := [5, 0, 0, 0], readPos_ := 0,
        writePos_ := 1, filling := true } [6, 7]).2 = 2) ∧
    ((BufferedStream.readSomeComplete
      { bufferSize_ := 4, data_ := [5, 0, 0, 0], readPos_ := 0,
        writePos_ := 1, filling := true } [6, 7]).1.writePos_ = 1 + 2) ∧
    ((BufferedStream.readSomeComplete
      { bufferSize_ := 4, data_ := [5, 0, 0, 0], readPos_ := 0,
        writePos_ := 1, filling := true } [6, 7]).1.size_ =
      BufferedStream.size_
        { bufferSize_ := 4, data_ := [5, 0, 0, 0], readPos_ := 0,
          writePos_ := 1, filling := false } + 2) :=
  claim_C3_fill_resolves
    { bufferSize_ := 4, data_ := [5, 0, 0, 0], readPos_ := 0,
      writePos_ := 1, filling := false } _ 4 3 [6, 7] (by decide) rfl
    (by decide)

/-- C4: `consume(n)` fails with `InvalidArgument` and leaves
`readOffset`, `writeOffset` and `unconsumedSize()` unchanged whenever
`n > unconsumedSize()`; whenever `n ≤ unconsumedSize()` it advances
`readOffset` by exactly `n`, leaves `writeOffset` unchanged, and
decreases `unconsumedSize()` by exactly `n`. -/
theorem claim_C4_consume_contract (s : BufferedStream) (n : Nat)
    (h : s.readPos_ ≤ s.writePos_) :
    (s.size_ < n →
      s.consume n = Except.error BufferError.invalidArgument ∧
        s.step (BufOp.doConsume n) = s) ∧
    (n ≤ s.size_ →
      s.consume n = Except.ok { s with readPos_ := s.readPos_ + n } ∧
        (s.step (BufOp.doConsume n)).readPos_ = s.readPos_ + n ∧
        (s.step (BufOp.doConsume n)).writePos_ = s.writePos_ ∧
        (s.step (BufOp.doConsume n)).size_ + n = s.size_) := by
  refine ⟨fun hn => ?_, fun hn => ?_⟩
  · have hc : s.consume n = Except.error BufferError.invalidArgument := by
      unfold BufferedStream.consume
      rw [if_pos hn]
    exact ⟨hc, by simp only [BufferedStream.step, hc]⟩
  · have hnn : ¬s.size_ < n := by omega
    have hc : s.consume n = Except.ok { s with readPos_ := s.readPos_ + n } := by
      unfold BufferedStream.consume
      rw [if_neg hnn]
    refine ⟨hc, ?_, ?_, ?_⟩ <;> simp only [BufferedStream.step, hc]
    show s.writePos_ - (s.readPos_ + n) + n = s.size_
    unfold BufferedStream.size_ at hn ⊢
    omega

/-- Witness for C4: with two unconsumed bytes, `consume 3` fails with
`InvalidArgument` and changes nothing, while `consume 1` advances the
read offset and shrinks the unconsumed size by one. -/
theorem claim_C4_consume_contract_witness :
    (BufferedStream.consume
      { bufferSize_ := 4, data_ := [1, 2, 0, 0], readPos_ := 0,
        writePos_ := 2, filling := false } 3
      = Except.error BufferError.invalidArgument ∧
    BufferedStream.step
      { bufferSize_ := 4, data_ := [1, 2, 0, 0], readPos_ := 0,
        writePos_ := 2, filling := false } (BufOp.doConsume 3)
      = { bufferSize_ := 4, data_ := [1, 2, 0, 0], readPos_ := 0,
          writePos_ := 2, filling := false }) ∧
    (BufferedStream.consume
      { bufferSize_ := 4, data_ := [1, 2, 0, 0], readPos_ := 0,
        writePos_ := 2, filling := false } 1
      = Except.ok
        { bufferSize_ := 4, data_ := [1, 2, 0, 0], readPos_ := 0 + 1,
          writePos_ := 2, filling := false } ∧
    (BufferedStream.step
      { bufferSize_ := 4, data_ := [1, 2, 0, 0], readPos_ := 0,
        writePos_ := 2, filling := false } (BufOp.doConsume 1)).readPos_
      = 0 + 1 ∧
    (BufferedStream.step
      { bufferSize_ := 4, data_ := [1, 2, 0, 0], readPos_ := 0,
        writePos_ := 2, filling := false } (BufOp.doConsume 1)).writePos_
      = 2 ∧
    (BufferedStream.step
      { bufferSize_ := 4, data_ := [1, 2, 0, 0], readPos_ := 0,
        writePos_ := 2, filling := false } (BufOp.doConsume 1)).size_ + 1
      = BufferedStream.size_
        { bufferSize_ := 4, data_ := [1, 2, 0, 0], readPos_ := 0,
          writePos_ := 2, filling := false }) :=
  ⟨(claim_C4_consume_contract _ 3 (by decide)).1 (by decide),
    (claim_C4_consume_contract _ 1 (by decide)).2 (by decide)⟩

/-- C5: for every state in which, after any applicable compaction, the
free capacity is zero (the buffer entirely full of unconsumed data), a
fill fails with `BufferExhausted`; `readSomeStart` returns the error
before the source is ever involved, so no read is issued. -/
theorem claim_C5_buffer_exhausted (s : BufferedStream) (req : Nat)
    (resp : List Nat) (hIdle : s.filling = false)
    (hFull : (s.compact req).freeCapacity = 0) :
    s.readSomeStart req = Except.error BufferError.bufferExhausted ∧
    s.readSome req resp = Except.error BufferError.bufferExhausted := by
  have hstart : s.readSomeStart req = Except.error BufferError.bufferExhausted := by
    unfold BufferedStream.readSomeStart
    rw [hIdle]
    simp only [Bool.false_eq_true, if_false]
    rw [if_pos hFull]
  refine ⟨hstart, ?_⟩
  unfold BufferedStream.readSome
  rw [hstart]

/-- Witness for C5: a window of capacity 8 holding 8 unconsumed bytes
fails a further fill with `BufferExhausted`. -/
theorem claim_C5_buffer_exhausted_witness :
    BufferedStream.readSomeStart
      { bufferSize_ := 8, data_ := [1, 2, 3, 4, 5, 6, 7, 8], readPos_ := 0,
        writePos_ := 8, filling := false } 8
      = Except.error BufferError.bufferExhausted ∧
    BufferedStream.readSome
      { bufferSize_ := 8, data_ := [1, 2, 3, 4, 5, 6, 7, 8], readPos_ := 0,
        writePos_ := 8, filling := false } 8 [9]
      = Except.error BufferError.bufferExhausted :=
  claim_C5_buffer_exhausted _ 8 [9] rfl rfl

/-- C6: at most one fill is in flight on an instance: calling fill while
Filling fails with `OperationInProgress`; a successfully started fill
puts the instance into the Filling state; and a fill's completion —
successful (including zero-length) or failed — returns the instance to
the Idle state. -/
theorem claim_C6_single_fill_in_flight (s t : BufferedStream) (req : Nat)
    (resp : List Nat) :
    (s.filling = true →
      s.readSomeStart req = Except.error BufferError.operationInProgress) ∧
    (∀ c eff, s.readSomeStart req = Except.ok (c, eff) → c.filling = true) ∧
    (t.readSomeComplete resp).1.filling = false ∧
    t.readSomeFail.filling = false := by
  refine ⟨fun hf => ?_, fun c eff hs => ?_,
    by simp [BufferedStream.readSomeComplete],
    by simp [BufferedStream.readSomeFail]⟩
  · unfold BufferedStream.readSomeStart
    rw [hf]
    simp
  · obtain ⟨_, hc, _, _⟩ := BufferedStream.readSomeStart_ok hs
    rw [hc]

/-- Witness for C6: on a concrete Filling instance a second fill fails
with `OperationInProgress`; a concrete started fill is Filling; and both
completion forms return concrete instances to Idle. -/
theorem claim_C6_single_fill_in_flight_witness :
    (BufferedStream.readSomeStart
      { bufferSize_ := 2, data_ := [0, 0], readPos_ := 0, writePos_ := 0,
        filling := true } 2
      = Except.error BufferError.operationInProgress) ∧
    ({ bufferSize_ := 2, data_ := [0, 0], readPos_ := 0, writePos_ := 0,
        filling := true } : BufferedStream).filling = true ∧
    (BufferedStream.readSomeComplete
      { bufferSize_ := 2, data_ := [0, 0], readPos_ := 0, writePos_ := 0,
        filling := true } [7]).1.filling = false ∧
    (BufferedStream.readSomeFail
      { bufferSize_ := 2, data_ := [0, 0], readPos_ := 0, writePos_ := 0,
        filling := true }).filling = false :=
  ⟨(claim_C6_single_fill_in_flight
      { bufferSize_ := 2, data_ := [0, 0], readPos_ := 0, writePos_ := 0,
        filling := true }
      { bufferSize_ := 2, data_ := [0, 0], readPos_ := 0, writePos_ := 0,
        filling := true } 2 [7]).1 rfl,
    (claim_C6_single_fill_in_flight
      { bufferSize_ := 2, data_ := [0, 0], readPos_ := 0, writePos_ := 0,
        filling := false }
      { bufferSize_ := 2, data_ := [0, 0], readPos_ := 0, writePos_ := 0,
        filling := true } 2 [7]).2.1
      { bufferSize_ := 2, data_ := [0, 0], readPos_ := 0, writePos_ := 0,
        filling := true } 2 rfl,
    (claim_C6_single_fill_in_flight
      { bufferSize_ := 2, data_ := [0, 0], readPos_ := 0, writePos_ := 0,
        filling := true }
      { bufferSize_ := 2, data_ := [0, 0], readPos_ := 0, writePos_ := 0,
        filling := true } 2 [7]).2.2.1,
    (claim_C6_single_fill_in_flight
      { bufferSize_ := 2, data_ := [0, 0], readPos_ := 0, writePos_ := 0,
        filling := true }
      { bufferSize_ := 2, data_ := [0, 0], readPos_ := 0, writePos_ := 0,
        filling := true } 2 [7]).2.2.2⟩

/-- C7: construction fails with `InvalidArgument` exactly when the
capacity is 0; otherwise it yields a window with a buffer of exactly
`capacity` bytes and `readOffset = writeOffset = 0`; and when the
capacity is unspecified it defaults to `DefaultBufferSize = 4096`. -/
theorem claim_C7_construction (cap : Nat) :
    (BufferedStream.create cap = Except.error BufferError.invalidArgument
      ↔ cap = 0) ∧
    (cap ≠ 0 → ∃ s, BufferedStream.create cap = Except.ok s ∧
      s.readPos_ = 0 ∧ s.writePos_ = 0 ∧ s.data_.length = cap ∧
      s.bufferSize_ = cap ∧ s.filling = false) ∧
    BufferedStream.createDefault = BufferedStream.create DefaultBufferSize ∧
    DefaultBufferSize = 4096 := by
  refine ⟨⟨fun h => ?_, fun h => ?_⟩, fun h => ?_, rfl, rfl⟩
  · by_contra hne
    unfold BufferedStream.create at h
    rw [if_neg hne] at h
    exact absurd h (by simp)
  · subst h
    rfl
  · refine ⟨BufferedStream.mk cap (List.replicate cap 0) 0 0 false, ?_,
      rfl, rfl, List.length_replicate _ _, rfl, rfl⟩
    unfold BufferedStream.create
    rw [if_neg h]

/-- Witness for C7: capacity 0 is rejected and capacity 3 yields a fresh
window with a 3-byte buffer and both offsets at zero. -/
theorem claim_C7_construction_witness :
    (BufferedStream.create 0 = Except.error BufferError.invalidArgument) ∧
    (∃ s, BufferedStream.create 3 = Except.ok s ∧
      s.readPos_ = 0 ∧ s.writePos_ = 0 ∧ s.data_.length = 3 ∧
      s.bufferSize_ = 3 ∧ s.filling = false) :=
  ⟨(claim_C7_construction 0).1.2 rfl, (claim_C7_construction 3).2.1 (by decide)⟩

/-- C8: the zero-argument convenience form of fill behaves exactly as a
fill requesting the full configured capacity: for every state and every
source response, `readSomeNoArg` and the spec-side `fillFullCapacity`
agree. -/
theorem claim_C8_fill_noarg_full_capacity (s : BufferedStream)
    (newBytes : List Nat) :
    s.readSomeNoArg newBytes = s.fillFullCapacity newBytes := rfl
